import Mathlib

/-
Verification of the tamago USB device-mode controller driver.

The definitions below are a shallow embedding of the Go sources:
  soc/nxp/usb/setup.go   (setup dispatcher: trim, getDescriptor,
                          handleStandardSetup, handleClassSpecificSetup,
                          handleSetup)
  soc/nxp/usb/bus.go     (transfer engine: buildDTD chunking loop,
                          checkDTD, transfer, tx, rx)
  soc/nxp/usb/device.go  (device-mode run loop Start)

Machine integers are modelled as Nat with explicit masking where the Go
code relies on fixed-width behaviour.  Hardware interaction (register
waits, DMA) is modelled by explicit oracle parameters describing what the
hardware eventually does.
-/

namespace Tamago

/-! ### Constants from setup.go and the transfer engine -/

/-- Standard request code GET_STATUS (setup.go). -/
def GET_STATUS : Nat := 0

/-- Standard request code CLEAR_FEATURE (setup.go). -/
def CLEAR_FEATURE : Nat := 1

/-- Standard request code SET_ADDRESS (setup.go). -/
def SET_ADDRESS : Nat := 5

/-- Standard request code GET_DESCRIPTOR (setup.go). -/
def GET_DESCRIPTOR : Nat := 6

/-- Standard request code SET_DESCRIPTOR (setup.go). -/
def SET_DESCRIPTOR : Nat := 7

/-- Standard request code GET_CONFIGURATION (setup.go). -/
def GET_CONFIGURATION : Nat := 8

/-- Standard request code SET_CONFIGURATION (setup.go). -/
def SET_CONFIGURATION : Nat := 9

/-- Standard request code GET_INTERFACE (setup.go). -/
def GET_INTERFACE : Nat := 10

/-- Standard request code SET_INTERFACE (setup.go). -/
def SET_INTERFACE : Nat := 11

/-- Class request code HID_SET_IDLE (setup.go). -/
def HID_SET_IDLE : Nat := 0x0a

/-- Modelled from the spec: the vendor extension request code
(CDC SET_ETHERNET_PACKET_FILTER) consumed by handleStandardSetup; the
constant declaration itself is outside the provided sources, the CDC
standard value is 0x43. -/
def SET_ETHERNET_PACKET_FILTER : Nat := 0x43

/-- Descriptor type DEVICE (setup.go). -/
def DEVICE : Nat := 1

/-- Descriptor type CONFIGURATION (setup.go). -/
def CONFIGURATION : Nat := 2

/-- Descriptor type STRING (setup.go). -/
def STRING : Nat := 3

/-- Descriptor type DEVICE_QUALIFIER (setup.go). -/
def DEVICE_QUALIFIER : Nat := 6

/-- Descriptor type HID_REPORT (setup.go). -/
def HID_REPORT : Nat := 0x22

/-- Feature selector ENDPOINT_HALT (setup.go). -/
def ENDPOINT_HALT : Nat := 0

/-- Transfer direction OUT, host to device (bus.go). -/
def OUT : Nat := 0

/-- Transfer direction IN, device to host (bus.go). -/
def IN : Nat := 1

/-- Number of dTD buffer pages (bus.go, DTD_PAGES). -/
def DTD_PAGES : Nat := 5

/-- Size of one dTD buffer page (bus.go, DTD_PAGE_SIZE). -/
def DTD_PAGE_SIZE : Nat := 4096

/-- Maximum byte count carried by one transfer descriptor, as computed in
transfer: dtdLength := DTD_PAGES * DTD_PAGE_SIZE = 20480. -/
def dtdLength : Nat := DTD_PAGES * DTD_PAGE_SIZE

/-! ### Data model -/

/-- SetupData mirrors the Go struct in setup.go; each field is the Nat
value of the corresponding fixed-width machine integer (requestType,
request are uint8; value, index, length are uint16). -/
structure SetupData where
  requestType : Nat
  request : Nat
  value : Nat
  index : Nat
  length : Nat
deriving DecidableEq

/-- Error results produced by the dispatcher and the transfer engine;
each constructor stands for one fmt.Errorf site (or family of sites) in
the sources.  runtimePanic stands for a Go runtime panic (out-of-range
slice index). -/
inductive Err where
  | invalidDescriptorIndex
  | unsupportedDescriptor
  | unsupportedRequest
  | configurationErr
  | hardwareErr
  | incompleteTransfer
  | transferTimeout
  | overrideErr
  | runtimePanic
deriving DecidableEq

/-- Hardware-visible actions performed by the setup dispatcher, in
program order: stall(n, dir), tx(n, bytes) handing bytes to the endpoint
IN transfer, ack(n) (zero-length IN transfer), reset(n, dir) data-toggle
reset, and the SET_ADDRESS register write. -/
inductive Action where
  | stall (n dir : Nat)
  | tx (n : Nat) (bytes : List Nat)
  | ack (n : Nat)
  | reset (n dir : Nat)
  | setAddress (addr : Nat)
deriving DecidableEq

/-- Device mirrors the caller-owned device model consumed by setup.go.
Modelled from the spec: the Device struct itself is not among the
provided sources; per the spec it owns descriptor byte blobs
(device/qualifier), a configuration list, a string table, the current
configuration value and alternate setting, and an optional setup
override callback returning (in bytes, ack flag, done flag, error). -/
structure Device where
  descriptor : List Nat
  qualifier : List Nat
  configurations : List (List Nat)
  strings : List (List Nat)
  configurationValue : Nat
  alternateSetting : Nat
  setup : Option (SetupData → List Nat × Bool × Bool × Option Err)

/-- Configuration accessor. Modelled from the spec: dev.Configuration
returns the configuration byte blob for an index, or an error when the
index is invalid. -/
def Device.configuration (dev : Device) (index : Nat) : Option (List Nat) :=
  dev.configurations.get? index

/-- trim from setup.go: if int(wLength) < len(buf), buf = buf[0:wLength]. -/
def trim (buf : List Nat) (wLength : Nat) : List Nat :=
  if wLength < buf.length then buf.take wLength else buf

/-- Byte blob hex-decoded in the HID_REPORT branch of getDescriptor
(setup.go line 127); 64 bytes. -/
def hidReportBytes : List Nat :=
  [5, 1, 9, 6, 161, 1, 5, 7, 25, 224, 41, 231, 21, 0, 37, 1,
   117, 1, 149, 8, 129, 2, 149, 1, 117, 8, 129, 3, 149, 3, 117, 1,
   5, 8, 25, 1, 41, 3, 145, 2, 149, 1, 117, 5, 145, 3, 149, 6,
   117, 8, 21, 0, 38, 164, 0, 5, 7, 25, 0, 41, 164, 129, 0, 192]

/-! ### Setup dispatcher (setup.go)

Transfers performed by the dispatcher can themselves fail; the oracle
parameters txE (result of hw.tx for given bytes) and ackE (result of
hw.ack(0)) supply those outcomes.  Each dispatcher function returns the
list of hardware actions it performs, in order, together with its Go
error return value. -/

/-- getDescriptor from setup.go: dispatch on the low byte of setup.Value
(descriptor type), string/configuration index in the high byte.  The
uint16 addition index+1 of the STRING guard is modelled with the explicit
mod 65536.  The DEVICE_QUALIFIER branch hands dev.Qualifier.Bytes() to tx
without trim, exactly as the source does. -/
def getDescriptor (txE : List Nat → Option Err) (dev : Device)
    (s : SetupData) : List Action × Option Err :=
  let bDescriptorType := s.value % 256
  let index := s.value / 256
  if bDescriptorType = DEVICE then
    let b := trim dev.descriptor s.length
    ([Action.tx 0 b], txE b)
  else if bDescriptorType = CONFIGURATION then
    match dev.configuration index with
    | some conf =>
      let b := trim conf s.length
      ([Action.tx 0 b], txE b)
    | none => ([], some Err.configurationErr)
  else if bDescriptorType = STRING then
    if dev.strings.length < (index + 1) % 65536 then
      ([Action.stall 0 IN], some Err.invalidDescriptorIndex)
    else
      match dev.strings.get? index with
      | some str =>
        let b := trim str s.length
        ([Action.tx 0 b], txE b)
      | none => ([], some Err.runtimePanic)
  else if bDescriptorType = DEVICE_QUALIFIER then
    ([Action.tx 0 dev.qualifier], txE dev.qualifier)
  else if bDescriptorType = HID_REPORT then
    let b := trim hidReportBytes s.length
    ([Action.tx 0 b], txE b)
  else
    ([Action.stall 0 IN], some Err.unsupportedDescriptor)

/-- handleStandardSetup from setup.go, switch on setup.Request.  Returns
(actions, error, updated device).  Note that the CLEAR_FEATURE default
branch stalls without assigning err, exactly as the source does. -/
def handleStandardSetup (txE : List Nat → Option Err) (ackE : Option Err)
    (dev : Device) (s : SetupData) : List Action × Option Err × Device :=
  if s.request = GET_STATUS then
    ([Action.tx 0 [0, 0]], txE [0, 0], dev)
  else if s.request = CLEAR_FEATURE then
    if s.value = ENDPOINT_HALT then
      let n := s.index % 16
      let dir := (s.index &&& 128) / 128
      ([Action.reset n dir, Action.ack 0], ackE, dev)
    else
      ([Action.stall 0 IN], none, dev)
  else if s.request = SET_ADDRESS then
    let addr := ((s.value <<< 8) &&& 0xff00) ||| (s.value >>> 8)
    ([Action.setAddress addr, Action.ack 0], ackE, dev)
  else if s.request = GET_DESCRIPTOR then
    let r := getDescriptor txE dev s
    (r.1, r.2, dev)
  else if s.request = GET_CONFIGURATION then
    ([Action.tx 0 [dev.configurationValue]], txE [dev.configurationValue], dev)
  else if s.request = SET_CONFIGURATION then
    ([Action.ack 0], ackE, { dev with configurationValue := (s.value >>> 8) % 256 })
  else if s.request = GET_INTERFACE then
    ([Action.tx 0 [dev.alternateSetting]], txE [dev.alternateSetting], dev)
  else if s.request = SET_INTERFACE then
    ([Action.ack 0], ackE, { dev with alternateSetting := (s.value >>> 8) % 256 })
  else if s.request = SET_ETHERNET_PACKET_FILTER then
    ([Action.ack 0], ackE, dev)
  else
    ([Action.stall 0 IN], some Err.unsupportedRequest, dev)

/-- handleClassSpecificSetup from setup.go: only HID_SET_IDLE is acked,
anything else stalls EP0 IN with an unsupported request error. -/
def handleClassSpecificSetup (ackE : Option Err) (_dev : Device)
    (s : SetupData) : List Action × Option Err :=
  if s.request = HID_SET_IDLE then
    ([Action.ack 0], ackE)
  else
    ([Action.stall 0 IN], some Err.unsupportedRequest)

/-- Dispatch tail of handleSetup (setup.go lines 226-234): route on the
exact test setup.RequestType == 0x21; in both branches the sub-handler
return value is dropped by the source (the calls are statements), so the
error component of the result is none. -/
def dispatchSetup (txE : List Nat → Option Err) (ackE : Option Err)
    (dev : Device) (s : SetupData) (pre : List Action) :
    List Action × Option Err × Device :=
  if s.requestType = 0x21 then
    let r := handleClassSpecificSetup ackE dev s
    (pre ++ r.1, none, dev)
  else
    let r := handleStandardSetup txE ackE dev s
    (pre ++ r.1, none, r.2.2)

/-- handleSetup from setup.go.  The nil-setup early return is outside the
model (the packet argument is always present here).  When the
caller-supplied override is present it runs first; the short variable
declaration inside that block shadows the named return err, so when
control reaches the dispatch tail the function returns nil. -/
def handleSetup (txE : List Nat → Option Err) (ackE : Option Err)
    (dev : Device) (s : SetupData) : List Action × Option Err × Device :=
  match dev.setup with
  | some f =>
    let r := f s
    let inB := r.1
    let ackFlag := r.2.1
    let doneFlag := r.2.2.1
    let overrideRes := r.2.2.2
    if overrideRes.isSome then
      ([Action.stall 0 IN], overrideRes, dev)
    else
      let step : List Action × Option Err :=
        if inB ≠ [] then ([Action.tx 0 inB], txE inB)
        else if ackFlag then ([Action.ack 0], ackE)
        else ([], none)
      if doneFlag ∨ step.2.isSome then
        (step.1, step.2, dev)
      else
        dispatchSetup txE ackE dev s step.1
  | none => dispatchSetup txE ackE dev s []

/-! ### Transfer engine (bus.go)

transfer(n, dir, ioc, buf) partitions the buffer into chunks of at most
dtdLength = 20480 bytes, builds one dTD per chunk, primes the endpoint,
waits for completion, walks the chain in checkDTD and frees every dTD
(via defer) when it returns. -/

/-- Chunk list built by the descriptor loop of transfer, expressed over
the remaining byte count rem = transferSize - i.  The source loop is
  for add := true; add; add = i < transferSize \x7b
      size := dtdLength
      if i+size > transferSize \x7b size = transferSize - i \x7d
      ... i += dtdLength \x7d
so one chunk of size min(dtdLength, rem) is emitted per iteration and the
loop continues exactly while dtdLength < rem. -/
def buildChunks (rem : Nat) : List Nat :=
  if dtdLength < rem then
    dtdLength :: buildChunks (rem - dtdLength)
  else
    [rem]
termination_by rem
decreasing_by
  simp only [dtdLength, DTD_PAGES, DTD_PAGE_SIZE] at *
  omega

/-- Per-dTD total byte counts built by one transfer call for a buffer of
transferSize bytes (the loop starts at i = 0, so rem starts at the full
transfer size). -/
def dtdSizes (transferSize : Nat) : List Nat :=
  buildChunks transferSize

/-- What the hardware eventually does to one submitted dTD, as observed
through its token register: whether its active bit ever clears, the token
value read back after the wait, and the dTD total size (_size). -/
structure DtdObs where
  activeClears : Bool
  finalToken : Nat
  size : Nat
deriving DecidableEq

/-- Result of a computation that may spin forever in an unbounded
register wait. -/
inductive Outcome (α : Type) where
  | diverges
  | ok (a : α)
deriving DecidableEq

/-- checkDTD from bus.go, endpoint 0 branch.  For EP0 the source runs a
1-second bounded spin (result discarded, only logged) and then
reg.Wait(token, TOKEN_ACTIVE, 1, 0), an unbounded busy wait: modelled
from the spec register primitives, the wait returns only if the active
bit eventually clears, so a dTD whose active bit never clears makes the
whole call diverge.  After the wait the token is read back: a non-zero
low byte is a hardware error; for IN, a non-zero remaining count
(token >> 16) is an incomplete transfer; both return immediately.
The result carries (accumulated size, error, number of dTDs whose
active-bit wait completed); the last component instruments how many
descriptors were observed inactive before checkDTD returned.  The byte
count subtraction is performed by Go in uint32; no claim concerns the
size component, which here uses truncated Nat subtraction. -/
def checkDTD0 (dir : Nat) : List DtdObs → Outcome (Nat × Option Err × Nat)
  | [] => Outcome.ok (0, none, 0)
  | d :: rest =>
    if d.activeClears = false then
      Outcome.diverges
    else
      let dtdToken := d.finalToken
      if dtdToken % 256 ≠ 0 then
        Outcome.ok (0, some Err.hardwareErr, 1)
      else
        let restBytes := dtdToken / 65536
        let moved := d.size - restBytes
        if dir = IN ∧ restBytes > 0 then
          Outcome.ok (0, some Err.incompleteTransfer, 1)
        else
          match checkDTD0 dir rest with
          | Outcome.diverges => Outcome.diverges
          | Outcome.ok (size, e, obs) => Outcome.ok (size + moved, e, obs + 1)

/-- Completion slice of transfer from bus.go for endpoint 0, after the
dTD chain is built and primed.  Oracle parameters: primeClears is
whether the prime-request bit ever self-clears (reg.Wait(hw.prime, ...)
is unbounded); completeWithin is whether the completion bit is set
within the 20 ms deadline of reg.WaitFor.  When the deadline expires the
source assigns err = transfer completion timed out, but the subsequent
  size, err := checkDTD(n, dir, dtds, hw.done)
reuses the named return err and overwrites it, which is why the bound
errTimeout below does not flow into the result. -/
def transfer0 (dir : Nat) (primeClears : Bool) (completeWithin : Bool)
    (dtds : List DtdObs) : Outcome (Nat × Option Err × Nat) :=
  if primeClears = false then
    Outcome.diverges
  else
    let _errTimeout : Option Err :=
      if completeWithin then none else some Err.transferTimeout
    checkDTD0 dir dtds

/-- Number of dTDs released when transfer returns: every built dTD has a
  defer dma.Free(uint(dtd._dtd))
registered right after buildDTD, so all of them (and the backing pages
region) are freed on every return path of transfer. -/
def freedOnReturn (dtds : List DtdObs) : Nat :=
  dtds.length

/-- Return-value slice of transfer from bus.go (lines 378-383): only for
a non-zero endpoint, direction OUT and a caller-supplied buffer does the
source rebind out = buf[0:size] and overwrite it from the DMA region via
dma.Read, so the caller receives the first size received bytes;
otherwise out keeps its zero value nil. -/
def transferReturn (n dir : Nat) (buf : Option (List Nat)) (size : Nat)
    (dmaRegion : List Nat) : List Nat :=
  if n ≠ 0 ∧ dir = OUT ∧ buf.isSome then
    dmaRegion.take size
  else
    []

/-- tx from bus.go: an IN transfer, and exactly when that transfer
returned no error and the endpoint is 0, a second, empty OUT transfer
(status phase).  The oracle arguments give the two transfer outcomes;
the result lists the (endpoint, direction) transfer calls performed, in
order, with the error tx returns. -/
def txModel (n : Nat) (inErr outErr : Option Err) :
    List (Nat × Nat) × Option Err :=
  if inErr = none ∧ n = 0 then
    ([(n, IN), (n, OUT)], outErr)
  else
    ([(n, IN)], inErr)

/-! ### Device-mode run loop (device.go) -/

/-- Observable lifecycle events of the configuration-reload tail of the
Start loop: close(hw.done) signalling cancellation to the running
endpoint tasks, wg.Wait() joining them, and startEndpoints for a
configuration. -/
inductive Ev where
  | cancelSignal
  | join
  | startTasks (conf : Nat)
deriving DecidableEq

/-- State carried across Start loop iterations: the local conf variable
and whether hw.done is non-nil (a cancellation channel exists, i.e. a
configuration was started before).  Modelled from the spec for the part
outside the sources: startEndpoints installs a fresh done channel, so
after it runs hw.done is non-nil. -/
structure LoopState where
  conf : Nat
  doneOpen : Bool
deriving DecidableEq

/-- Configuration-reload tail of one Start loop iteration (device.go
lines 89-108): when dev.ConfigurationValue equals conf the iteration
continues with no lifecycle event; otherwise conf is updated, the
previous tasks (if any: hw.done != nil) are signalled and joined, and
the new configuration endpoints are started. -/
def configReload (st : LoopState) (devConf : Nat) : List Ev × LoopState :=
  if devConf = st.conf then
    ([], st)
  else
    ((if st.doneOpen then [Ev.cancelSignal, Ev.join] else [])
        ++ [Ev.startTasks devConf],
     { conf := devConf, doneOpen := true })

/-! ### Helper lemmas -/

/-- trim returns exactly min(blobLength, requestedLength) bytes. -/
theorem trim_length (buf : List Nat) (w : Nat) :
    (trim buf w).length = min buf.length w := by
  unfold trim
  split
  · rw [List.length_take]
    omega
  · omega

/-! ### Claim C1 -/

/-- Device used as explicit input for the C1 counterexample: a qualifier
blob of length 2. -/
def c1dev : Device := ⟨[], [7, 7], [], [], 0, 0, none⟩

/-- Setup packet for the C1 counterexample: GET_DESCRIPTOR with
descriptor type DEVICE_QUALIFIER (value low byte 6) and wLength 1. -/
def c1setup : SetupData := ⟨0x80, 6, 6, 0, 1⟩

/-- Claim C1, counterexample: a DEVICE_QUALIFIER request with blob length
L = 2 and requested length W = 1 hands the full 2-byte blob to the
endpoint 0 IN transfer, whose length differs from min(L, W) = 1, because
the DEVICE_QUALIFIER branch of getDescriptor does not trim. -/
theorem getDescriptor_qualifier_untrimmed_cex :
    (getDescriptor (fun _ => none) c1dev c1setup).1 = [Action.tx 0 [7, 7]] ∧
    ([7, 7] : List Nat).length ≠ min c1dev.qualifier.length c1setup.length := by
  exact ⟨by decide, by decide⟩

/-- Claim C1 (amended): for GET_DESCRIPTOR requests dispatched by
descriptor type, the DEVICE, CONFIGURATION, STRING and HID_REPORT
branches hand the endpoint 0 IN transfer exactly min(L, W) bytes for
blob length L and requested wLength W; the DEVICE_QUALIFIER branch hands
over the full blob of length L regardless of W. -/
theorem getDescriptor_trim_amended (txE : List Nat → Option Err)
    (dev : Device) (s : SetupData) (hv : s.value < 65536) :
    (s.value % 256 = DEVICE →
      ∃ b, (getDescriptor txE dev s).1 = [Action.tx 0 b] ∧
        b.length = min dev.descriptor.length s.length) ∧
    (∀ conf, s.value % 256 = CONFIGURATION →
      dev.configuration (s.value / 256) = some conf →
      ∃ b, (getDescriptor txE dev s).1 = [Action.tx 0 b] ∧
        b.length = min conf.length s.length) ∧
    (∀ str, s.value % 256 = STRING →
      dev.strings.get? (s.value / 256) = some str →
      ∃ b, (getDescriptor txE dev s).1 = [Action.tx 0 b] ∧
        b.length = min str.length s.length) ∧
    (s.value % 256 = HID_REPORT →
      ∃ b, (getDescriptor txE dev s).1 = [Action.tx 0 b] ∧
        b.length = min hidReportBytes.length s.length) ∧
    (s.value % 256 = DEVICE_QUALIFIER →
      (getDescriptor txE dev s).1 = [Action.tx 0 dev.qualifier]) := by
  refine ⟨?_, ?_, ?_, ?_, ?_⟩
  · intro h
    refine ⟨trim dev.descriptor s.length, ?_, trim_length _ _⟩
    simp [getDescriptor, DEVICE, h]
  · intro conf h hconf
    refine ⟨trim conf s.length, ?_, trim_length _ _⟩
    simp [getDescriptor, DEVICE, CONFIGURATION, h, hconf]
  · intro str h hstr
    refine ⟨trim str s.length, ?_, trim_length _ _⟩
    have hlt : s.value / 256 < dev.strings.length := by
      have := List.get?_eq_some.mp hstr
      exact this.choose
    have hguard : ¬ (dev.strings.length < (s.value / 256 + 1) % 65536) := by
      have hidx : s.value / 256 < 256 := by omega
      rw [Nat.mod_eq_of_lt (by omega)]
      omega
    have hstr2 : dev.strings[s.value / 256]? = some str := by
      simpa [List.get?_eq_getElem?] using hstr
    simp [getDescriptor, DEVICE, CONFIGURATION, STRING, h, hguard, hstr2]
  · intro h
    refine ⟨trim hidReportBytes s.length, ?_, trim_length _ _⟩
    simp [getDescriptor, DEVICE, CONFIGURATION, STRING, DEVICE_QUALIFIER,
      HID_REPORT, h]
  · intro h
    simp [getDescriptor, DEVICE, CONFIGURATION, STRING, DEVICE_QUALIFIER, h]

/-- Witness for the amended C1 theorem: a DEVICE request against a
3-byte device descriptor with wLength 2 hands over min(3, 2) bytes. -/
theorem getDescriptor_trim_amended_witness :
    ∃ b, (getDescriptor (fun _ => none)
        (⟨[1, 2, 3], [], [], [], 0, 0, none⟩ : Device)
        (⟨0x80, 6, 1, 0, 2⟩ : SetupData)).1 = [Action.tx 0 b] ∧
      b.length = min ([1, 2, 3] : List Nat).length 2 :=
  (getDescriptor_trim_amended (fun _ => none)
    ⟨[1, 2, 3], [], [], [], 0, 0, none⟩ ⟨0x80, 6, 1, 0, 2⟩ (by decide)).1 (by decide)

/-! ### Claim C2 -/

/-- Each chunk of the descriptor-building loop is at most dtdLength. -/
theorem buildChunks_le (rem : Nat) : ∀ c ∈ buildChunks rem, c ≤ dtdLength := by
  induction rem using Nat.strong_induction_on with
  | _ rem ih =>
    rw [buildChunks]
    split
    · rename_i h
      intro c hc
      rcases List.mem_cons.mp hc with rfl | hc
      · omega
      · exact ih (rem - dtdLength)
          (by simp only [dtdLength, DTD_PAGES, DTD_PAGE_SIZE] at h ⊢; omega) c hc
    · rename_i h
      intro c hc
      rcases List.mem_singleton.mp hc with rfl
      omega

/-- The chunk sizes of the descriptor-building loop sum to the full
transfer size. -/
theorem buildChunks_sum (rem : Nat) : (buildChunks rem).sum = rem := by
  induction rem using Nat.strong_induction_on with
  | _ rem ih =>
    rw [buildChunks]
    split
    · rename_i h
      have hrec := ih (rem - dtdLength)
        (by simp only [dtdLength, DTD_PAGES, DTD_PAGE_SIZE] at h ⊢; omega)
      rw [List.sum_cons, hrec]
      omega
    · simp

/-- The descriptor-building loop emits max(1, ceil(rem / dtdLength))
chunks. -/
theorem buildChunks_length (rem : Nat) :
    (buildChunks rem).length = max 1 ((rem + dtdLength - 1) / dtdLength) := by
  induction rem using Nat.strong_induction_on with
  | _ rem ih =>
    rw [buildChunks]
    split
    · rename_i h
      have hrec := ih (rem - dtdLength)
        (by simp only [dtdLength, DTD_PAGES, DTD_PAGE_SIZE] at h ⊢; omega)
      rw [List.length_cons, hrec]
      simp only [dtdLength, DTD_PAGES, DTD_PAGE_SIZE] at h ⊢
      omega
    · rename_i h
      simp only [List.length_singleton]
      simp only [dtdLength, DTD_PAGES, DTD_PAGE_SIZE] at h ⊢
      omega

/-- Claim C2, counterexample: a transfer of size S = 0 (every ack and
every zero-length status transfer) builds one transfer descriptor, while
ceil(0 / 20480) = 0; the loop condition of transfer is written to run at
least once precisely so that zero-length transfers get a descriptor. -/
theorem transfer_chunking_zero_cex :
    (dtdSizes 0).length = 1 ∧ (0 + dtdLength - 1) / dtdLength = 0 ∧
    (dtdSizes 0).length ≠ (0 + dtdLength - 1) / dtdLength := by
  refine ⟨?_, by decide, ?_⟩ <;>
    simp [dtdSizes, buildChunks, dtdLength, DTD_PAGES, DTD_PAGE_SIZE]

/-- Claim C2 (amended): for every transfer size S the descriptor loop
builds max(1, ceil(S / 20480)) transfer descriptors — equal to
ceil(S / 20480) for S > 0 and to one for S = 0 — each carrying a total
byte count of at most 20480, and the chunk sizes sum to S. -/
theorem transfer_chunking_amended (S : Nat) :
    (dtdSizes S).length = max 1 ((S + dtdLength - 1) / dtdLength) ∧
    (∀ c ∈ dtdSizes S, c ≤ dtdLength) ∧
    (dtdSizes S).sum = S :=
  ⟨buildChunks_length S, buildChunks_le S, buildChunks_sum S⟩

/-- Witness for the amended C2 theorem at S = 50000: three descriptors
(20480, 20480, 9040) whose counts sum to 50000. -/
theorem transfer_chunking_amended_witness :
    (dtdSizes 50000).length = max 1 ((50000 + dtdLength - 1) / dtdLength) ∧
    (20480 : Nat) ≤ dtdLength ∧
    (dtdSizes 50000).sum = 50000 := by
  have h50 : dtdSizes 50000 = [20480, 20480, 9040] := by
    rw [dtdSizes, buildChunks, buildChunks, buildChunks]
    norm_num [dtdLength, DTD_PAGES, DTD_PAGE_SIZE]
  exact ⟨(transfer_chunking_amended 50000).1,
    (transfer_chunking_amended 50000).2.1 20480 (by rw [h50]; simp),
    (transfer_chunking_amended 50000).2.2⟩

/-! ### Claim C3 -/

/-- checkDTD on endpoint 0 returns whenever every active bit eventually
clears (the unbounded spins all finish). -/
theorem checkDTD0_ok_of_clears (dir : Nat) (dtds : List DtdObs)
    (h : ∀ d ∈ dtds, d.activeClears = true) :
    ∃ r, checkDTD0 dir dtds = Outcome.ok r := by
  induction dtds with
  | nil => exact ⟨(0, none, 0), rfl⟩
  | cons d rest ih =>
    have hd : d.activeClears = true := h d (List.mem_cons_self d rest)
    obtain ⟨r, hr⟩ := ih (fun x hx => h x (List.mem_cons_of_mem d hx))
    simp only [checkDTD0, hd]
    split
    · simp_all
    · split
      · exact ⟨_, rfl⟩
      · split
        · exact ⟨_, rfl⟩
        · rw [hr]
          exact ⟨_, rfl⟩

/-- Claim C3, counterexample: with the 20 ms completion deadline expired
(completeWithin = false), an endpoint 0 transfer over a single
descriptor whose active bit never clears spins forever instead of
returning (the per-descriptor wait is reg.Wait, unbounded); and over a
descriptor that does complete cleanly, the call returns error none — the
transfer-timeout error assigned at deadline expiry is overwritten by the
checkDTD result and never reaches the caller. -/
theorem ep0_transfer_bounded_cex :
    transfer0 IN true false [⟨false, 0, 0⟩] = Outcome.diverges ∧
    transfer0 IN true false [⟨true, 0, 0⟩] = Outcome.ok (0, none, 1) := by
  exact ⟨by decide, by decide⟩

/-- Claim C3 (amended): the endpoint 0 completion wait does use a 20 ms
deadline, but the timeout error it assigns is overwritten by the
checkDTD result, so the value transfer returns never depends on whether
the deadline was met; and the per-descriptor active-bit wait is a
bounded 1 s spin followed by an unbounded spin, so the call returns
(rather than spinning forever) whenever the prime-request bit and every
descriptor active bit eventually clear. -/
theorem ep0_transfer_amended (dir : Nat) (pc c c' : Bool)
    (dtds : List DtdObs) :
    transfer0 dir pc c dtds = transfer0 dir pc c' dtds ∧
    (pc = true → (∀ d ∈ dtds, d.activeClears = true) →
      ∃ r, transfer0 dir pc c dtds = Outcome.ok r) := by
  constructor
  · rfl
  · intro hpc hall
    subst hpc
    simpa [transfer0] using checkDTD0_ok_of_clears dir dtds hall

/-- Witness for the amended C3 theorem at a concrete input: the prime
bit clears and the single descriptor goes inactive, so the endpoint 0
transfer returns. -/
theorem ep0_transfer_amended_witness :
    transfer0 IN true true [⟨true, 0, 0⟩]
        = transfer0 IN true false [⟨true, 0, 0⟩] ∧
    ∃ r, transfer0 IN true true [⟨true, 0, 0⟩] = Outcome.ok r :=
  ⟨(ep0_transfer_amended IN true true false [⟨true, 0, 0⟩]).1,
   (ep0_transfer_amended IN true true false [⟨true, 0, 0⟩]).2 rfl (by decide)⟩

/-! ### Claim C4 -/

/-- Claim C4, counterexample: an endpoint 0 receive with a caller
buffer returns the empty slice instead of the first bytesMoved received
bytes — the copy-back in transfer is guarded by n != 0, so endpoint 0 is
excluded. -/
theorem receive_copyback_ep0_cex :
    transferReturn 0 OUT (some [1, 2, 3]) 2 [9, 8, 7] = [] ∧
    transferReturn 0 OUT (some [1, 2, 3]) 2 [9, 8, 7] ≠ List.take 2 [9, 8, 7] := by
  exact ⟨by decide, by decide⟩

/-- Claim C4 (amended): for a receive with a caller-supplied buffer on
any non-zero endpoint, transfer returns the first bytesMoved bytes of
the DMA region; endpoint 0 is excluded by the n != 0 guard. -/
theorem receive_copyback_amended (n dir size : Nat) (buf dmaRegion : List Nat)
    (hn : n ≠ 0) (hdir : dir = OUT) :
    transferReturn n dir (some buf) size dmaRegion = dmaRegion.take size := by
  simp [transferReturn, hn, hdir]

/-- Witness for the amended C4 theorem: endpoint 1, bytesMoved 2, DMA
region [9, 8, 7]. -/
theorem receive_copyback_amended_witness :
    transferReturn 1 OUT (some [1, 2, 3]) 2 [9, 8, 7] = List.take 2 [9, 8, 7] :=
  receive_copyback_amended 1 OUT 2 [1, 2, 3] [9, 8, 7] (by decide) rfl

/-! ### Claim C5 -/

/-- Device with no setup override, used as explicit input for C5. -/
def c5dev : Device := ⟨[], [], [], [], 0, 0, none⟩

/-- Claim C5, counterexample: requestType 0x20 has bit 5 set, yet
handleSetup routes the packet to the standard handler — request code
0x0a is read there as GET_INTERFACE, so the device transmits the
alternate setting — instead of the class-specific handler, which would
ack it as HID_SET_IDLE: the dispatch tests requestType == 0x21 exactly,
not bit 5. -/
theorem handleSetup_bit5_cex :
    (0x20 >>> 5) % 2 = 1 ∧
    (handleSetup (fun _ => none) none c5dev ⟨0x20, HID_SET_IDLE, 0, 0, 0⟩).1
        = [Action.tx 0 [0]] ∧
    (handleClassSpecificSetup none c5dev ⟨0x20, HID_SET_IDLE, 0, 0, 0⟩).1
        = [Action.ack 0] := by
  exact ⟨by decide, by decide, by decide⟩

/-- Claim C5 (amended): handleSetup dispatches to the class-specific
handler exactly when requestType equals 0x21, and to the standard
handler for every other requestType value, whether or not bit 5 is set;
the sub-handler error results are discarded. -/
theorem handleSetup_dispatch_amended (txE : List Nat → Option Err)
    (ackE : Option Err) (dev : Device) (s : SetupData)
    (ho : dev.setup = none) :
    (s.requestType = 0x21 →
      (handleSetup txE ackE dev s).1 = (handleClassSpecificSetup ackE dev s).1) ∧
    (s.requestType ≠ 0x21 →
      (handleSetup txE ackE dev s).1 = (handleStandardSetup txE ackE dev s).1) := by
  constructor <;> intro h <;> simp [handleSetup, ho, dispatchSetup, h]

/-- Witness for the amended C5 theorem: a packet with requestType 0x21
reaches the class-specific handler. -/
theorem handleSetup_dispatch_amended_witness :
    (handleSetup (fun _ => none) none c5dev ⟨0x21, HID_SET_IDLE, 0, 0, 0⟩).1
      = (handleClassSpecificSetup none c5dev ⟨0x21, HID_SET_IDLE, 0, 0, 0⟩).1 :=
  (handleSetup_dispatch_amended (fun _ => none) none c5dev
    ⟨0x21, HID_SET_IDLE, 0, 0, 0⟩ rfl).1 rfl

/-! ### Claim C6 -/

/-- Claim C6: a GET_DESCRIPTOR(STRING) request whose extracted string
index (the high byte of the 16-bit value field) is outside the device
string table stalls endpoint 0 IN, returns the invalid-descriptor-index
error, and performs no transmission: the action list is exactly the one
stall.  The extracted index is at most 255, so the uint16 increment in
the range guard cannot wrap and the guard catches every out-of-range
index. -/
theorem string_descriptor_oor_stalls (txE : List Nat → Option Err)
    (dev : Device) (s : SetupData) (hv : s.value < 65536)
    (hty : s.value % 256 = STRING)
    (hoor : dev.strings.length ≤ s.value / 256) :
    getDescriptor txE dev s
      = ([Action.stall 0 IN], some Err.invalidDescriptorIndex) := by
  have hguard : dev.strings.length < (s.value / 256 + 1) % 65536 := by
    have hidx : s.value / 256 < 256 := by omega
    rw [Nat.mod_eq_of_lt (by omega)]
    omega
  simp [getDescriptor, DEVICE, CONFIGURATION, STRING, hty, hguard]

/-- Device with a 3-entry string table for the C6 witness. -/
def c6dev : Device := ⟨[], [], [], [[1], [2], [3]], 0, 0, none⟩

/-- Witness for C6: GET_DESCRIPTOR(STRING, index = 5) against 3
configured strings (value = 0x0503 after the endianness swap) stalls
endpoint 0 IN and reports the invalid index. -/
theorem string_descriptor_oor_stalls_witness :
    getDescriptor (fun _ => none) c6dev ⟨0x80, GET_DESCRIPTOR, 1283, 0, 255⟩
      = ([Action.stall 0 IN], some Err.invalidDescriptorIndex) :=
  string_descriptor_oor_stalls (fun _ => none) c6dev
    ⟨0x80, GET_DESCRIPTOR, 1283, 0, 255⟩ (by decide) (by decide) (by decide)

/-! ### Claim C7 -/

/-- Claim C7, counterexample: when the endpoint 0 IN transfer returns an
error, tx performs no status-phase OUT transfer — the empty OUT follows
only a successful IN transfer (guard err == nil in tx). -/
theorem tx_status_phase_cex :
    txModel 0 (some Err.hardwareErr) none = ([(0, IN)], some Err.hardwareErr) ∧
    (0, OUT) ∉ (txModel 0 (some Err.hardwareErr) none).1 := by
  exact ⟨by decide, by decide⟩

/-- Claim C7 (amended): every endpoint 0 send whose IN transfer
completes without error is followed by exactly one empty OUT transfer as
the status-phase acknowledgment; a failed IN transfer is not. -/
theorem tx_status_phase_amended (outErr : Option Err) :
    txModel 0 none outErr = ([(0, IN), (0, OUT)], outErr) := by
  simp [txModel]

/-! ### Claim C8 -/

/-- Device with no setup override, used as explicit input for C8. -/
def c8dev : Device := ⟨[], [], [], [], 0, 0, none⟩

/-- Claim C8, failing input evaluated: for an unsupported standard
request (SET_DESCRIPTOR, requestType 0) the standard handler stalls
endpoint 0 IN and builds an unsupported-request error, but handleSetup
drops the sub-handler return value and returns no error to the control
loop; and for CLEAR_FEATURE with an unknown feature selector
(value = 2, TEST_MODE) the standard handler stalls without building any
error at all. -/
theorem handleSetup_stall_error_dropped :
    (handleSetup (fun _ => none) none c8dev ⟨0, SET_DESCRIPTOR, 0, 0, 0⟩).1
        = [Action.stall 0 IN] ∧
    (handleSetup (fun _ => none) none c8dev ⟨0, SET_DESCRIPTOR, 0, 0, 0⟩).2.1
        = none ∧
    (handleStandardSetup (fun _ => none) none c8dev ⟨0, SET_DESCRIPTOR, 0, 0, 0⟩).2.1
        = some Err.unsupportedRequest ∧
    (handleStandardSetup (fun _ => none) none c8dev ⟨0, CLEAR_FEATURE, 2, 0, 0⟩).1
        = [Action.stall 0 IN] ∧
    (handleStandardSetup (fun _ => none) none c8dev ⟨0, CLEAR_FEATURE, 2, 0, 0⟩).2.1
        = none := by
  exact ⟨by decide, by decide, by decide, by decide, by decide⟩

/-! ### Claim C9 -/

/-- checkDTD observation bound: when checkDTD returns, the number of
descriptors whose active-bit wait completed is at most the chain length,
and equals the chain length exactly on the error-free path. -/
theorem checkDTD0_observed (dir : Nat) (dtds : List DtdObs)
    (size obs : Nat) (e : Option Err)
    (h : checkDTD0 dir dtds = Outcome.ok (size, e, obs)) :
    obs ≤ dtds.length ∧ (e = none → obs = dtds.length) := by
  induction dtds generalizing size obs e with
  | nil =>
    simp only [checkDTD0, Outcome.ok.injEq, Prod.mk.injEq] at h
    obtain ⟨-, he, hobs⟩ := h
    subst hobs
    exact ⟨Nat.le_refl 0, fun _ => rfl⟩
  | cons d rest ih =>
    simp only [checkDTD0] at h
    split at h
    · exact absurd h (by simp)
    · split at h
      · simp only [Outcome.ok.injEq, Prod.mk.injEq] at h
        obtain ⟨-, he, hobs⟩ := h
        subst hobs
        refine ⟨by simp, fun hn => ?_⟩
        rw [← he] at hn
        exact absurd hn (by simp)
      · split at h
        · simp only [Outcome.ok.injEq, Prod.mk.injEq] at h
          obtain ⟨-, he, hobs⟩ := h
          subst hobs
          refine ⟨by simp, fun hn => ?_⟩
          rw [← he] at hn
          exact absurd hn (by simp)
        · split at h
          · exact absurd h (by simp)
          · rename_i s' e' o' hrest
            simp only [Outcome.ok.injEq, Prod.mk.injEq] at h
            obtain ⟨-, he, hobs⟩ := h
            obtain ⟨h1, h2⟩ := ih s' o' e' hrest
            subst hobs
            refine ⟨by simpa using h1, fun hn => ?_⟩
            rw [← he] at hn
            simp [h2 hn]

/-- Claim C9, counterexample: an endpoint 0 transfer over a two-node
chain whose first descriptor completes with a non-zero error byte
(token 0x40) returns after observing only that first descriptor, yet
the deferred frees release both descriptors on return — the second is
freed although its active bit was never observed cleared (here it in
fact never clears). -/
theorem dtd_freed_unobserved_cex :
    transfer0 IN true true [⟨true, 64, 0⟩, ⟨false, 0, 0⟩]
        = Outcome.ok (0, some Err.hardwareErr, 1) ∧
    freedOnReturn [⟨true, 64, 0⟩, ⟨false, 0, 0⟩] = 2 ∧
    (1 : Nat) < 2 := by
  exact ⟨by decide, by decide, by decide⟩

/-- Claim C9 (amended): whenever transfer returns, every built
descriptor (and the backing DMA region) is freed by the deferred calls;
on an error-free return every descriptor active bit was observed
cleared before the frees run, but on an early hardware-error or
partial-transfer return only the descriptors up to the failing one were
observed, and the rest are freed regardless. -/
theorem transfer_free_amended (dir : Nat) (pc c : Bool) (dtds : List DtdObs)
    (size obs : Nat) (e : Option Err)
    (h : transfer0 dir pc c dtds = Outcome.ok (size, e, obs)) :
    freedOnReturn dtds = dtds.length ∧ obs ≤ dtds.length ∧
    (e = none → obs = dtds.length) := by
  have hchk : checkDTD0 dir dtds = Outcome.ok (size, e, obs) := by
    by_cases hpc : pc = false
    · rw [transfer0, if_pos hpc] at h
      exact absurd h (by simp)
    · rwa [transfer0, if_neg hpc] at h
  obtain ⟨h1, h2⟩ := checkDTD0_observed dir dtds size obs e hchk
  exact ⟨rfl, h1, h2⟩

/-- Witness for the amended C9 theorem: a one-descriptor chain that
completes cleanly is fully observed and fully freed. -/
theorem transfer_free_amended_witness :
    freedOnReturn [(⟨true, 0, 0⟩ : DtdObs)] = [(⟨true, 0, 0⟩ : DtdObs)].length ∧
    (1 : Nat) ≤ [(⟨true, 0, 0⟩ : DtdObs)].length ∧
    ((none : Option Err) = none → (1 : Nat) = [(⟨true, 0, 0⟩ : DtdObs)].length) :=
  transfer_free_amended IN true true [⟨true, 0, 0⟩] 0 1 none (by decide)

/-! ### Claim C10 -/

/-- Claim C10: in the device-mode run loop, a configuration value equal
to the current one produces no lifecycle event (no endpoint task is
stopped or started); a different value first signals cancellation to the
previous configuration tasks and joins them, and only then starts the
new configuration tasks; when no previous configuration was started
(hw.done is nil) the new tasks start directly. -/
theorem start_configuration_change (st : LoopState) (c : Nat) :
    (c = st.conf → (configReload st c).1 = []) ∧
    (c ≠ st.conf → st.doneOpen = true →
      (configReload st c).1 = [Ev.cancelSignal, Ev.join, Ev.startTasks c]) ∧
    (c ≠ st.conf → st.doneOpen = false →
      (configReload st c).1 = [Ev.startTasks c]) := by
  refine ⟨fun h => ?_, fun h hd => ?_, fun h hd => ?_⟩
  · simp [configReload, h]
  · simp [configReload, h, hd]
  · simp [configReload, h, hd]

/-- Witness for C10: from configuration 1 with running tasks, reloading
configuration 1 does nothing and reloading configuration 2 cancels,
joins, then starts. -/
theorem start_configuration_change_witness :
    (configReload ⟨1, true⟩ 1).1 = [] ∧
    (configReload ⟨1, true⟩ 2).1 = [Ev.cancelSignal, Ev.join, Ev.startTasks 2] :=
  ⟨(start_configuration_change ⟨1, true⟩ 1).1 rfl,
   (start_configuration_change ⟨1, true⟩ 2).2.1 (by decide) rfl⟩

end Tamago
